import Mathlib

/-!
Shallow embedding of the RSSDI feed-polling pipeline (momoxrss_python).

Python strings are modelled as Lean `String`; the string primitives the
source uses (`split`, `in`, `lower`, `strip`, `rstrip`, `startswith`) are
re-implemented below by structural recursion over the character list so
that every definition evaluates inside the kernel.  `re.search` is an
oracle parameter `search : String → String → Except Unit Bool` where
`Except.error ()` models `re.error` being raised for an invalid pattern.
The SQLite table `sent_items` is a list of `(flux_id, item_url)` rows; its
`UNIQUE` constraint on `item_url` is the guard in `mark_as_sent`.
The Discord sink and the MongoDB metadata update are outcome oracles
`sendOk metaOk : Entry → Bool` (the message text itself does not feed back
into any state the claims mention).
-/

/-- Python `a or b` on an optional string: `None` and `""` are falsy. -/
def pyOrStr (a : Option String) (b : String) : String :=
  match a with
  | some s => if s = "" then b else s
  | none => b

/-- `sub in s` on character lists (Python substring membership). -/
def listContains (sub : List Char) : List Char → Bool
  | [] => sub.isEmpty
  | c :: cs => sub.isPrefixOf (c :: cs) || listContains sub cs

/-- Python `sub in s` for strings. -/
def strContains (s sub : String) : Bool := listContains sub.data s.data

/-- Python `s.lower()` (ASCII fragment, which covers every use in the source). -/
def strLower (s : String) : String := String.mk (s.data.map Char.toLower)

/-- Python `s.startswith(pre)`. -/
def pyStartsWith (s pre : String) : Bool := pre.data.isPrefixOf s.data

/-- Drop the first `n` characters of a string. -/
def pyDrop (s : String) (n : Nat) : String := String.mk (s.data.drop n)

/-- First occurrence of `sep` in the input: the part before it and the
part after it, or `none` when `sep` does not occur. -/
def splitFirst (sep : List Char) : List Char → Option (List Char × List Char)
  | [] => none
  | c :: cs =>
    if sep.isPrefixOf (c :: cs) then some ([], (c :: cs).drop sep.length)
    else
      match splitFirst sep cs with
      | some (pre, post) => some (c :: pre, post)
      | none => none

/-- Fuelled worker for `pySplit`; the fuel `s.length + 1` always suffices
because a non-empty separator consumes at least one character. -/
def pySplitAux (sep : List Char) : Nat → List Char → List (List Char)
  | 0, s => [s]
  | fuel + 1, s =>
    match splitFirst sep s with
    | none => [s]
    | some (pre, post) => pre :: pySplitAux sep fuel post

/-- Python `s.split(sep)` for a non-empty separator. -/
def pySplit (s sep : String) : List String :=
  (pySplitAux sep.data (s.data.length + 1) s.data).map String.mk

/-- Python `url.split(sep)[-1].split("/")[0].split("?")[0]`, the segment
extraction idiom used throughout `url_resolver.py`. -/
def pySeg (url sep : String) : String :=
  let afterSep := (pySplit url sep).getLastD ""
  let beforeSlash := (pySplit afterSep "/").headD ""
  (pySplit beforeSlash "?").headD ""

/-- Python `s.rstrip("/")`. -/
def pyRstripSlash (s : String) : String :=
  String.mk ((s.data.reverse.dropWhile (fun c => c == '/')).reverse)

/-- Python `s.strip()` (ASCII whitespace fragment). -/
def pyStrip (s : String) : String :=
  String.mk (((s.data.dropWhile Char.isWhitespace).reverse.dropWhile
    Char.isWhitespace).reverse)

/-- Decimal value of a digit string. -/
def digitsToNat (l : List Char) : Nat :=
  l.foldl (fun acc c => acc * 10 + (c.toNat - 48)) 0

/-!  ## db.py — the `sent_items` SQLite store  -/

/-- Rows of the `sent_items` table: `(flux_id, item_url)`.  The table has
`item_url TEXT NOT NULL UNIQUE`, so at most one row per url is insertable. -/
abbrev SentStore := List (String × String)

/-- `already_sent(item_url)`: `SELECT 1 FROM sent_items WHERE item_url = ?`. -/
def already_sent (store : SentStore) (itemUrl : String) : Bool :=
  store.any (fun r => r.2 == itemUrl)

/-- `mark_as_sent(flux_id, item_url)`: an `INSERT` whose
`sqlite3.IntegrityError` (the UNIQUE constraint on `item_url` firing) is
caught and ignored. -/
def mark_as_sent (store : SentStore) (fluxId itemUrl : String) : SentStore :=
  if already_sent store itemUrl then store else store ++ [(fluxId, itemUrl)]

/-- Number of rows holding a given `item_url`. -/
def countKey (store : SentStore) (itemUrl : String) : Nat :=
  store.countP (fun r => r.2 == itemUrl)

/-!  ## rss_checker.py — filter helpers  -/

/-- `normalize_text`: `(s or "").strip()`; the argument here is already a
string, callers apply `pyOrStr` for the `or` part. -/
def normalize_text (s : String) : String := pyStrip s

/-- `match_keywords(text, keywords)`. -/
def match_keywords (text : String) (keywords : List String) : Bool :=
  if keywords.isEmpty then true
  else keywords.any (fun kw => strContains (strLower text) (strLower kw))

/-- The `for pat in patterns: if re.search(pat, text): return True` loop
inside `match_regex`; `Except.error ()` is a raised `re.error`. -/
def reSearchAll (search : String → String → Except Unit Bool) (text : String) :
    List String → Except Unit Bool
  | [] => Except.ok false
  | pat :: rest =>
    match search pat text with
    | Except.error e => Except.error e
    | Except.ok true => Except.ok true
    | Except.ok false => reSearchAll search text rest

/-- `match_regex(text, patterns, expect)` from rss_checker.py: empty
pattern list and a raised `re.error` both return `expect`. -/
def match_regex (search : String → String → Except Unit Bool) (text : String)
    (patterns : List String) (expect : Bool) : Bool :=
  if patterns.isEmpty then expect
  else
    match reSearchAll search text patterns with
    | Except.ok b => b
    | Except.error _ => expect

/-- `RSSService.match_regex(text, patterns)` from rss_service.py: empty
pattern list returns `True`, a raised `re.error` returns `True`. -/
def RSSService.match_regex (search : String → String → Except Unit Bool)
    (text : String) (patterns : List String) : Bool :=
  if patterns.isEmpty then true
  else
    match reSearchAll search text patterns with
    | Except.ok b => b
    | Except.error _ => true

/-- The guard `if flux.regexExclude and match_regex(full_text,
flux.regexExclude, expect=True): continue` in `check_flux`: `true` means
the item is rejected by the exclude-regex predicate. -/
def excludeRegexRejects (search : String → String → Except Unit Bool)
    (patterns : List String) (text : String) : Bool :=
  !patterns.isEmpty && match_regex search text patterns true

/-- `extract_domain`: `re.sub(r"^https?://(www\.)?", "", url).split("/")[0]`.
The `www.` prefix is only stripped when a scheme prefix matched. -/
def extract_domain (url : String) : String :=
  let stripped :=
    if pyStartsWith url "https://" then
      let rest := pyDrop url 8
      if pyStartsWith rest "www." then pyDrop rest 4 else rest
    else if pyStartsWith url "http://" then
      let rest := pyDrop url 7
      if pyStartsWith rest "www." then pyDrop rest 4 else rest
    else url
  (pySplit stripped "/").headD ""

/-- `match_domains(url, whitelist, blacklist)`. -/
def match_domains (url : String) (whitelist blacklist : List String) : Bool :=
  let domain := extract_domain url
  if !whitelist.isEmpty && !whitelist.contains domain then false
  else if !blacklist.isEmpty && blacklist.contains domain then false
  else true

/-- `datetime.strptime(s, "%H:%M").time()` as seconds in the day: one or
two digits for the hour (0–23), one or two digits for the minutes (0–59),
nothing left over; `none` models a raised `ValueError`. -/
def parseHHMM (s : String) : Option Nat :=
  match pySplit s ":" with
  | [h, m] =>
    if 1 ≤ h.data.length ∧ h.data.length ≤ 2 ∧ h.data.all Char.isDigit ∧
        1 ≤ m.data.length ∧ m.data.length ≤ 2 ∧ m.data.all Char.isDigit then
      let hv := digitsToNat h.data
      let mv := digitsToNat m.data
      if hv ≤ 23 ∧ mv ≤ 59 then some (hv * 3600 + mv * 60) else none
    else none
  | _ => none

/-- `within_quiet_hours(now, start, end)` from rss_checker.py (identical to
`RSSService.is_in_quiet_hours`); `now` is the current time of day in
seconds.  Note both comparisons are inclusive: `st <= now_t <= en` and
`now_t >= st or now_t <= en`. -/
def within_quiet_hours (now : Nat) (qs qe : Option String) : Bool :=
  match qs, qe with
  | some s, some e =>
    if s = "" ∨ e = "" then false
    else
      match parseHHMM s, parseHHMM e with
      | some st, some en =>
        if st < en then decide (st ≤ now ∧ now ≤ en)
        else decide (st ≤ now ∨ now ≤ en)
      | _, _ => false
  | _, _ => false

/-- The quiet-hours predicate as the spec words it: reject exactly when the
current time lies in the half-open interval `[start, end)`, wrapping past
midnight when `start > end`; stated for comparison with the code's
`within_quiet_hours`. -/
def quietHoursSpecHalfOpen (now : Nat) (qs qe : Option String) : Bool :=
  match qs, qe with
  | some s, some e =>
    match parseHHMM s, parseHHMM e with
    | some st, some en =>
      if st < en then decide (st ≤ now ∧ now < en)
      else if en < st then decide (st ≤ now ∨ now < en)
      else false
    | _, _ => false
  | _, _ => false

/-- `language_filter(text, language)`. -/
def language_filter (text : String) (language : Option String) : Bool :=
  match language with
  | none => true
  | some lang =>
    if lang = "" then true
    else
      let t := strLower text
      if lang = "fr" then
        let markers := [" le ", " la ", " les ", " de ", " des ", " et ",
          " à ", " pour ", " sur "]
        decide (1 ≤ markers.countP (fun m => strContains t m))
      else if lang = "en" then
        let markers := [" the ", " and ", " of ", " for ", " on ", " with ",
          " from "]
        decide (1 ≤ markers.countP (fun m => strContains t m))
      else true

/-!  ## Feed items (feedparser entries)  -/

/-- A parsed feed entry: the fields `check_flux` reads, with
`published`/`updated` already converted to epoch seconds (the
`time.mktime(...parsed)` step). -/
structure Entry where
  title : Option String
  link : Option String
  guid : Option String
  summary : Option String
  description : Option String
  published : Option Int
  updated : Option Int
deriving Repr, DecidableEq

/-- `getItemLinkOrGuid(entry)`: `entry.get("link") or entry.get("id") or ""`. -/
def getItemLinkOrGuid (e : Entry) : String := pyOrStr e.link (pyOrStr e.guid "")

/-- `getItemDate(entry)`: `published_parsed` preferred over `updated_parsed`. -/
def getItemDate (e : Entry) : Option Int :=
  match e.published with
  | some t => some t
  | none => e.updated

/-- The sort key of `_sort_items`: `getItemDate(e) or 0`. -/
def sortKey (e : Entry) : Int := (getItemDate e).getD 0

/-- The descending-timestamp order used by `_sort_items`. -/
def entryGE (a b : Entry) : Prop := sortKey b ≤ sortKey a

instance : DecidableRel entryGE :=
  fun a b => inferInstanceAs (Decidable (sortKey b ≤ sortKey a))

instance : IsTotal Entry entryGE :=
  ⟨fun a b => (le_total (sortKey b) (sortKey a)).imp id id⟩

instance : IsTrans Entry entryGE :=
  ⟨fun _ _ _ hab hbc => le_trans hbc hab⟩

/-- `_sort_items(entries)`: `sorted(entries, key=..., reverse=True)` — a
stable sort into descending key order. -/
def sort_items (es : List Entry) : List Entry := es.insertionSort entryGE

/-- The normalized link of an entry: `normalize_text(getItemLinkOrGuid(e))`. -/
def entryLink (e : Entry) : String := normalize_text (getItemLinkOrGuid e)

/-- `normalize_text(e.get("title") or "Sans titre")`. -/
def entryTitle (e : Entry) : String := normalize_text (pyOrStr e.title "Sans titre")

/-- `normalize_text(e.get("summary", "") or e.get("description", ""))`. -/
def entrySummary (e : Entry) : String :=
  normalize_text (pyOrStr e.summary (e.description.getD ""))

/-- `full_text = f"{title}\n{summary}"`. -/
def entryText (e : Entry) : String := entryTitle e ++ "\n" ++ entrySummary e

/-!  ## Feed configuration (models.py `FluxInDB`, the fields the pipeline reads)  -/

structure Flux where
  id : String
  rssUrl : String
  sourceType : String
  discordTarget : String
  /-- `interval` (pydantic default 300; the Field description says
  "min 60" but no constraint is attached). -/
  interval : Nat
  active : Bool
  includeKeywords : List String
  excludeKeywords : List String
  regexInclude : List String
  regexExclude : List String
  domainWhitelist : List String
  domainBlacklist : List String
  language : Option String
  /-- `maxPerRun` with `0` standing for both Python `0` and `None`
  (both are falsy in `flux.maxPerRun or 5`). -/
  maxPerRun : Nat
  quietHoursStart : Option String
  quietHoursEnd : Option String
  totalSent : Int
deriving Repr, DecidableEq

/-- `max_per_run = flux.maxPerRun or 5`. -/
def pyMaxPerRun (flux : Flux) : Nat :=
  if flux.maxPerRun = 0 then 5 else flux.maxPerRun

/-- The content-filter chain of `check_flux` past the dedup check:
language, include/exclude keywords, include/exclude regex, domains. -/
def passesContentFilters (search : String → String → Except Unit Bool)
    (flux : Flux) (fullText link : String) : Bool :=
  language_filter fullText flux.language &&
  (flux.includeKeywords.isEmpty || match_keywords fullText flux.includeKeywords) &&
  (flux.excludeKeywords.isEmpty || !match_keywords fullText flux.excludeKeywords) &&
  (flux.regexInclude.isEmpty || match_regex search fullText flux.regexInclude true) &&
  (flux.regexExclude.isEmpty || !match_regex search fullText flux.regexExclude true) &&
  match_domains link flux.domainWhitelist flux.domainBlacklist

/-!  ## The check cycle (rss_checker.check_flux and
RSSService.check_and_send_flux)  -/

/-- Observable state of one check cycle: the `sent_items` store, the
in-run `seen_items` set, `sent_this_run`, the dispatched entries in
dispatch order, and the `totalSent` value currently stored in the feed's
metadata document. -/
structure CycleState where
  store : SentStore
  seen : List String
  sent : Nat
  dispatched : List Entry
  metaTotal : Int
deriving Repr, DecidableEq

/-- The `for e in entries:` loop of `check_flux` (rss_checker.py).
`quiet` is `within_quiet_hours(now, ...)` — constant during one cycle;
`sendOk e` is whether `send_to_discord` succeeds for this entry, `metaOk e`
whether the `coll.update_one` metadata write succeeds (a failure is caught
and the loop continues).  On success the metadata write stores
`flux.totalSent + 1`, computed from the in-memory snapshot. -/
def check_flux_loop (search : String → String → Except Unit Bool) (flux : Flux)
    (quiet : Bool) (sendOk metaOk : Entry → Bool) (maxPerRun : Nat) :
    List Entry → CycleState → CycleState
  | [], s => s
  | e :: rest, s =>
    if maxPerRun ≤ s.sent then s
    else if entryLink e = "" then
      check_flux_loop search flux quiet sendOk metaOk maxPerRun rest s
    else if quiet then
      check_flux_loop search flux quiet sendOk metaOk maxPerRun rest s
    else if entryLink e ∈ s.seen then
      check_flux_loop search flux quiet sendOk metaOk maxPerRun rest s
    else if already_sent s.store (entryLink e) then
      check_flux_loop search flux quiet sendOk metaOk maxPerRun rest s
    else if !passesContentFilters search flux (entryText e) (entryLink e) then
      check_flux_loop search flux quiet sendOk metaOk maxPerRun rest
        { s with seen := entryLink e :: s.seen }
    else if sendOk e then
      check_flux_loop search flux quiet sendOk metaOk maxPerRun rest
        { s with
          seen := entryLink e :: s.seen
          store := mark_as_sent s.store flux.id (entryLink e)
          sent := s.sent + 1
          dispatched := s.dispatched ++ [e]
          metaTotal := if metaOk e then flux.totalSent + 1 else s.metaTotal }
    else
      check_flux_loop search flux quiet sendOk metaOk maxPerRun rest
        { s with seen := entryLink e :: s.seen }

/-- The loop of `RSSService.check_and_send_flux` (rss_service.py): identical
control flow, but the metadata write stores
`flux.totalSent + result["sent_count"]` (the count after increment). -/
def check_and_send_loop (search : String → String → Except Unit Bool) (flux : Flux)
    (quiet : Bool) (sendOk metaOk : Entry → Bool) (maxPerRun : Nat) :
    List Entry → CycleState → CycleState
  | [], s => s
  | e :: rest, s =>
    if maxPerRun ≤ s.sent then s
    else if entryLink e = "" then
      check_and_send_loop search flux quiet sendOk metaOk maxPerRun rest s
    else if quiet then
      check_and_send_loop search flux quiet sendOk metaOk maxPerRun rest s
    else if entryLink e ∈ s.seen then
      check_and_send_loop search flux quiet sendOk metaOk maxPerRun rest s
    else if already_sent s.store (entryLink e) then
      check_and_send_loop search flux quiet sendOk metaOk maxPerRun rest s
    else if !passesContentFilters search flux (entryText e) (entryLink e) then
      check_and_send_loop search flux quiet sendOk metaOk maxPerRun rest
        { s with seen := entryLink e :: s.seen }
    else if sendOk e then
      check_and_send_loop search flux quiet sendOk metaOk maxPerRun rest
        { s with
          seen := entryLink e :: s.seen
          store := mark_as_sent s.store flux.id (entryLink e)
          sent := s.sent + 1
          dispatched := s.dispatched ++ [e]
          metaTotal := if metaOk e then flux.totalSent + ((s.sent : Int) + 1)
            else s.metaTotal }
    else
      check_and_send_loop search flux quiet sendOk metaOk maxPerRun rest
        { s with seen := entryLink e :: s.seen }

/-- Cycle entry state: empty `seen_items`, `sent_this_run = 0`, and the
metadata document still holding the snapshot `flux.totalSent`. -/
def initialState (flux : Flux) (store₀ : SentStore) : CycleState :=
  { store := store₀, seen := [], sent := 0, dispatched := [], metaTotal := flux.totalSent }

/-- One `check_flux` cycle over already-fetched entries: sort, compute the
quiet-hours flag once, run the loop. -/
def check_flux_run (search : String → String → Except Unit Bool) (flux : Flux)
    (now : Nat) (sendOk metaOk : Entry → Bool) (entries : List Entry)
    (store₀ : SentStore) : CycleState :=
  check_flux_loop search flux
    (within_quiet_hours now flux.quietHoursStart flux.quietHoursEnd)
    sendOk metaOk (pyMaxPerRun flux) (sort_items entries)
    (initialState flux store₀)

/-- One `RSSService.check_and_send_flux` cycle over already-fetched entries. -/
def check_and_send_run (search : String → String → Except Unit Bool) (flux : Flux)
    (now : Nat) (sendOk metaOk : Entry → Bool) (entries : List Entry)
    (store₀ : SentStore) : CycleState :=
  check_and_send_loop search flux
    (within_quiet_hours now flux.quietHoursStart flux.quietHoursEnd)
    sendOk metaOk (pyMaxPerRun flux) (sort_items entries)
    (initialState flux store₀)

/-- An entry qualifies for dispatch in a cycle starting from store
`store₀`: non-empty link, not inside quiet hours, not previously sent, and
it passes the content-filter chain. -/
def qualifies (search : String → String → Except Unit Bool) (flux : Flux)
    (quiet : Bool) (store₀ : SentStore) (e : Entry) : Bool :=
  (entryLink e != "") && !quiet && !already_sent store₀ (entryLink e) &&
    passesContentFilters search flux (entryText e) (entryLink e)

/-!  ## app/utils/url_resolver.py  -/

namespace URLResolver

/-- `URLResolver._resolve_youtube`. -/
def resolveYoutube (url : String) : String :=
  if strContains url "youtube.com/channel/" then
    "https://www.youtube.com/feeds/videos.xml?channel_id=" ++
      pySeg url "youtube.com/channel/"
  else if strContains url "youtube.com/@" then
    "https://www.youtube.com/feeds/videos.xml?user=" ++ pySeg url "youtube.com/@"
  else if strContains url "youtube.com/user/" then
    "https://www.youtube.com/feeds/videos.xml?user=" ++ pySeg url "youtube.com/user/"
  else if strContains url "youtube.com/c/" then
    "https://www.youtube.com/feeds/videos.xml?user=" ++ pySeg url "youtube.com/c/"
  else if strContains url "list=" then
    "https://www.youtube.com/feeds/videos.xml?playlist_id=" ++
      ((pySplit ((pySplit url "list=").getLastD "") "&").headD "")
  else url

/-- `URLResolver._resolve_facebook`; `base` is `settings.rsshub_base`. -/
def resolveFacebook (base url : String) : String :=
  if strContains url "facebook.com/" then
    pyRstripSlash base ++ "/facebook/page/" ++ pySeg url "facebook.com/"
  else url

/-- `URLResolver._resolve_instagram`; `base` is `settings.rsshub_base`. -/
def resolveInstagram (base url : String) : String :=
  if strContains url "instagram.com/" then
    pyRstripSlash base ++ "/instagram/user/" ++ pySeg url "instagram.com/"
  else url

/-- `URLResolver._resolve_tiktok`; `base` is `settings.rsshub_base`. -/
def resolveTiktok (base url : String) : String :=
  if strContains url "tiktok.com/@" then
    pyRstripSlash base ++ "/tiktok/user/" ++ pySeg url "tiktok.com/@"
  else url

/-- The dispatch on `source_type` inside the `try` of `URLResolver.resolve`. -/
def resolveBody (base url sourceType : String) : String :=
  if sourceType = "youtube" then resolveYoutube url
  else if sourceType = "facebook" then resolveFacebook base url
  else if sourceType = "instagram" then resolveInstagram base url
  else if sourceType = "tiktok" then resolveTiktok base url
  else url

/-- The `try/except` of `URLResolver.resolve`: a raised exception
(`Except.error`) falls back to the original url. -/
def resolveGuard (attempt : Except Unit String) (url : String) : String :=
  match attempt with
  | Except.ok s => s
  | Except.error _ => url

/-- `URLResolver.resolve(url, source_type)`: the body is a total string
transformation, run under the exception guard. -/
def resolve (base url sourceType : String) : String :=
  resolveGuard (Except.ok (resolveBody base url sourceType)) url

end URLResolver

/-!  ## app/services/scheduler_service.py  -/

/-- Scheduler state: the `aggressive_mode` flag and the APScheduler job
table as `(job_id, interval seconds)` pairs. -/
structure SchedulerState where
  aggressive : Bool
  jobs : List (String × Nat)
deriving Repr, DecidableEq

/-- `job_id = f"flux_{flux.id}"`. -/
def jobIdOf (fluxId : String) : String := "flux_" ++ fluxId

/-- The interval computation in `SchedulerService.schedule_flux`:
`10` under aggressive mode, else `flux.checkInterval or
settings.default_check_interval` (Python `or`: `0` falls back). -/
def effective_interval (aggressive : Bool) (defaultInterval interval : Nat) : Nat :=
  if aggressive then 10
  else if interval = 0 then defaultInterval else interval

/-- `SchedulerService.schedule_flux`: remove any existing job with this id,
then add a job at the effective interval. -/
def schedule_flux (defaultInterval : Nat) (st : SchedulerState) (flux : Flux) :
    SchedulerState :=
  { st with
    jobs := st.jobs.filter (fun j => j.1 != jobIdOf flux.id) ++
      [(jobIdOf flux.id, effective_interval st.aggressive defaultInterval flux.interval)] }

/-- `SchedulerService.reload_all_schedules`: remove every job, then
schedule each active flux from the configuration store. -/
def reload_all_schedules (defaultInterval : Nat) (fluxes : List Flux)
    (st : SchedulerState) : SchedulerState :=
  (fluxes.filter (fun f => f.active)).foldl (schedule_flux defaultInterval)
    { st with jobs := [] }

/-- `SchedulerService.set_aggressive_mode`: set the flag, then reload all
schedules. -/
def set_aggressive_mode (defaultInterval : Nat) (fluxes : List Flux)
    (st : SchedulerState) (enabled : Bool) : SchedulerState :=
  reload_all_schedules defaultInterval fluxes { st with aggressive := enabled }

/-!  ## app/routers/fluxes.py — feed creation  -/

/-- `isValidDiscordId`: `re.fullmatch(r"\d{17,20}", value)`. -/
def isValidDiscordId (v : String) : Bool :=
  decide (17 ≤ v.data.length ∧ v.data.length ≤ 20) && v.data.all Char.isDigit

/-- The fields of a `FluxCreate` request that `create_flux` inspects. -/
structure FluxCreate where
  discordTarget : String
  rssUrl : String
  sourceType : String
  interval : Nat
  active : Bool
deriving Repr, DecidableEq

/-- The document `create_flux` inserts. -/
structure FluxDoc where
  rssUrl : String
  sourceType : String
  discordTarget : String
  interval : Nat
  active : Bool
  totalSent : Int
deriving Repr, DecidableEq

/-- `create_flux` (app/routers/fluxes.py): validate the Discord id, resolve
the source url, insert the document.  No other validation is performed —
in particular the interval is stored as given. -/
def create_flux (base : String) (f : FluxCreate) : Except String FluxDoc :=
  if !isValidDiscordId f.discordTarget then Except.error "ID Discord invalide"
  else Except.ok
    { rssUrl := URLResolver.resolve base f.rssUrl f.sourceType
      sourceType := f.sourceType
      discordTarget := f.discordTarget
      interval := f.interval
      active := f.active
      totalSent := 0 }

/-- A concrete stand-in for `re.search` used in counterexamples: the
pattern `"["` is invalid in Python (`re.error: unterminated character
set`), every other pattern simply fails to match. -/
def pySearchStub : String → String → Except Unit Bool :=
  fun pat _ => if pat = "[" then Except.error () else Except.ok false

/-!  ## Concrete fixtures used by closed theorems and witnesses  -/

/-- A feed configuration with every content filter disabled. -/
def fluxNoFilters (fid : String) (maxPerRun : Nat) (totalSent : Int) : Flux :=
  { id := fid, rssUrl := "", sourceType := "web",
    discordTarget := "123456789012345678", interval := 300, active := true,
    includeKeywords := [], excludeKeywords := [], regexInclude := [],
    regexExclude := [], domainWhitelist := [], domainBlacklist := [],
    language := none, maxPerRun := maxPerRun, quietHoursStart := none,
    quietHoursEnd := none, totalSent := totalSent }

/-- An entry with the given link and publish date. -/
def mkEntry (l : String) (d : Int) : Entry :=
  ⟨some "t", some l, none, none, none, some d, none⟩

/-- A flux fixture for scheduler theorems. -/
def mkSchedFlux (fid : String) (interval : Nat) (active : Bool) : Flux :=
  { fluxNoFilters fid 5 0 with interval := interval, active := active }

/-!  ## Supporting lemmas  -/

theorem already_sent_append (st : SentStore) (r : String × String) (u : String) :
    already_sent (st ++ [r]) u = (already_sent st u || (r.2 == u)) := by
  simp [already_sent]

theorem mark_as_sent_of_not_sent (st : SentStore) (f u : String)
    (h : already_sent st u = false) : mark_as_sent st f u = st ++ [(f, u)] := by
  simp [mark_as_sent, h]

/-!  ## Claim theorems  -/

/-- C1: after `mark_as_sent`, `already_sent` on the same key is true; a
second `mark_as_sent` with the same key is a no-op (the duplicate insert
raises no error), and starting from a store without the key the store ends
with exactly one record for it. -/
theorem mark_sent_roundtrip_idempotent (store : SentStore) (fluxId itemKey : String) :
    already_sent (mark_as_sent store fluxId itemKey) itemKey = true ∧
    mark_as_sent (mark_as_sent store fluxId itemKey) fluxId itemKey =
      mark_as_sent store fluxId itemKey ∧
    (countKey store itemKey = 0 →
      countKey (mark_as_sent store fluxId itemKey) itemKey = 1) := by
  have hid : ∀ st : SentStore, already_sent st itemKey = true →
      mark_as_sent st fluxId itemKey = st := by
    intro st h
    simp [mark_as_sent, h]
  have hsent : already_sent (mark_as_sent store fluxId itemKey) itemKey = true := by
    by_cases h : already_sent store itemKey = true
    · rw [hid store h]; exact h
    · have h' : already_sent store itemKey = false := by simpa using h
      rw [mark_as_sent_of_not_sent store fluxId itemKey h']
      simp [already_sent]
  refine ⟨hsent, hid _ hsent, ?_⟩
  intro hz
  unfold countKey at hz ⊢
  have hnot : already_sent store itemKey = false := by
    unfold already_sent
    rw [List.any_eq_false]
    intro r hr
    have h := (List.countP_eq_zero.mp hz) r hr
    simpa using h
  rw [mark_as_sent_of_not_sent store fluxId itemKey hnot, List.countP_append, hz]
  simp

/-- C1 witness at a concrete store and key. -/
theorem mark_sent_roundtrip_idempotent_witness :
    already_sent (mark_as_sent [] "feed1" "http://a/1") "http://a/1" = true ∧
    mark_as_sent (mark_as_sent [] "feed1" "http://a/1") "feed1" "http://a/1" =
      mark_as_sent [] "feed1" "http://a/1" ∧
    countKey (mark_as_sent [] "feed1" "http://a/1") "http://a/1" = 1 := by
  have h := mark_sent_roundtrip_idempotent [] "feed1" "http://a/1"
  exact ⟨h.1, h.2.1, h.2.2 (by decide)⟩

/-- C3 counterexample: with the invalid exclude pattern `"["` (Python
`re.error`), the regex evaluation raises, `match_regex` returns `True`
(its `expect` default), and the caller therefore rejects the item — the
exclude-regex predicate DOES reject on an invalid pattern, refuting the
claimed fail-open behaviour.  The service copy behaves identically. -/
theorem exclude_regex_invalid_pattern_rejects :
    reSearchAll pySearchStub "hello world" ["["] = Except.error () ∧
    match_regex pySearchStub "hello world" ["["] true = true ∧
    excludeRegexRejects pySearchStub ["["] "hello world" = true ∧
    RSSService.match_regex pySearchStub "hello world" ["["] = true := by
  refine ⟨by rfl, by decide, by decide, by decide⟩

/-- C3 amended: a pattern match rejects the item, and an invalid pattern
(an evaluation of the exclude-pattern list that raises `re.error`) ALSO
rejects the item — the exclude-regex predicate fails closed, not open. -/
theorem exclude_regex_fail_closed (search : String → String → Except Unit Bool)
    (patterns : List String) (text : String) (hne : patterns ≠ []) :
    (reSearchAll search text patterns = Except.ok true →
      excludeRegexRejects search patterns text = true) ∧
    (∀ e, reSearchAll search text patterns = Except.error e →
      excludeRegexRejects search patterns text = true) := by
  constructor
  · intro h
    simp [excludeRegexRejects, match_regex, hne, h]
  · intro e h
    simp [excludeRegexRejects, match_regex, hne, h]

/-- C3 witness: the amended statement applied to the concrete invalid
pattern list. -/
theorem exclude_regex_fail_closed_witness :
    excludeRegexRejects pySearchStub ["["] "some text" = true :=
  (exclude_regex_fail_closed pySearchStub ["["] "some text" (by decide)).2 () (by rfl)

/-- C4 counterexample: at the upper boundary (now = 12:00:00 with
start = 10:00, end = 12:00) the code rejects — the interval is closed —
while the half-open `[start, end)` reading of the spec accepts. -/
theorem quiet_hours_boundary_counterexample :
    within_quiet_hours 43200 (some "10:00") (some "12:00") = true ∧
    quietHoursSpecHalfOpen 43200 (some "10:00") (some "12:00") = false := by
  exact ⟨by decide, by decide⟩

/-- C4 amended: the quiet-hours predicate rejects exactly on the CLOSED
interval `[start, end]` when start < end, and on `now ≥ start ∨ now ≤ end`
(both boundaries included, and the full day when start = end) otherwise;
missing or unparsable bounds never reject. -/
theorem quiet_hours_closed_interval (now st en : Nat) (s e : String)
    (hs : parseHHMM s = some st) (he : parseHHMM e = some en) :
    (within_quiet_hours now (some s) (some e) =
      if st < en then decide (st ≤ now ∧ now ≤ en)
      else decide (st ≤ now ∨ now ≤ en)) ∧
    (∀ (n : Nat) (oe : Option String), within_quiet_hours n none oe = false) ∧
    (∀ (n : Nat) (os : Option String), within_quiet_hours n os none = false) ∧
    (∀ (n : Nat) (s2 e2 : String), parseHHMM s2 = none ∨ parseHHMM e2 = none →
      within_quiet_hours n (some s2) (some e2) = false) := by
  refine ⟨?_, ?_, ?_, ?_⟩
  · have hs0 : ¬(s = "" ∨ e = "") := by
      rintro (rfl | rfl)
      · rw [show parseHHMM "" = none from by decide] at hs
        exact Option.noConfusion hs
      · rw [show parseHHMM "" = none from by decide] at he
        exact Option.noConfusion he
    simp [within_quiet_hours, hs0, hs, he]
  · intro n oe; cases oe <;> rfl
  · intro n os; cases os <;> rfl
  · intro n s2 e2 h
    by_cases h0 : s2 = "" ∨ e2 = ""
    · simp [within_quiet_hours, h0]
    · rcases h with h | h <;> simp [within_quiet_hours, h0, h]


/-- C4 witness: the amended statement applied to the spec's own example
(start 22:00, end 06:00, now 23:30). -/
theorem quiet_hours_closed_interval_witness :
    within_quiet_hours 84600 (some "22:00") (some "06:00") =
      (if 79200 < 21600 then decide (79200 ≤ 84600 ∧ 84600 ≤ 21600)
       else decide (79200 ≤ 84600 ∨ 84600 ≤ 21600)) :=
  (quiet_hours_closed_interval 84600 79200 21600 "22:00" "06:00"
    (by decide) (by decide)).1

/-- C6: `create_flux` accepts a feed whose interval is 5 seconds — no
minimum-interval validation exists in the router or the pydantic model
(the Field merely documents "min 60") — and the scheduler then installs a
5-second timer for it outside aggressive mode. -/
theorem create_flux_accepts_short_interval :
    create_flux "https://rsshub.app"
      { discordTarget := "123456789012345678", rssUrl := "https://example.com/feed",
        sourceType := "rss", interval := 5, active := true } =
      Except.ok
        { rssUrl := "https://example.com/feed", sourceType := "rss",
          discordTarget := "123456789012345678", interval := 5, active := true,
          totalSent := 0 } ∧
    effective_interval false 300 5 = 5 ∧ (5 : Nat) < 60 := by
  refine ⟨by rfl, by rfl, by decide⟩

/-- C8: the three source-resolution examples of the spec — YouTube
channel-id, YouTube handle, and Instagram through the configured bridging
base url. -/
theorem source_resolution_examples :
    URLResolver.resolve "https://rsshub.app" "https://youtube.com/channel/UCabc"
      "youtube" = "https://www.youtube.com/feeds/videos.xml?channel_id=UCabc" ∧
    URLResolver.resolve "https://rsshub.app" "https://youtube.com/@name"
      "youtube" = "https://www.youtube.com/feeds/videos.xml?user=name" ∧
    ∀ base : String, URLResolver.resolve base "https://instagram.com/alice"
      "instagram" = pyRstripSlash base ++ "/instagram/user/alice" := by
  refine ⟨by decide, by decide, ?_⟩
  intro base
  show URLResolver.resolveBody base "https://instagram.com/alice" "instagram" =
    pyRstripSlash base ++ "/instagram/user/alice"
  rw [show URLResolver.resolveBody base "https://instagram.com/alice" "instagram" =
      pyRstripSlash base ++ "/instagram/user/" ++ "alice" from rfl,
    String.append_assoc]
  congr 1

/-- C9: the resolver maps every kind outside youtube/facebook/instagram/
tiktok to the input url unchanged, and its exception guard returns the
original url whenever the body raises; the embedded body itself is a total
string function, so `resolve` always returns a string. -/
theorem resolver_passthrough_and_guard :
    (∀ base url kind : String, kind ≠ "youtube" → kind ≠ "facebook" →
      kind ≠ "instagram" → kind ≠ "tiktok" →
      URLResolver.resolve base url kind = url) ∧
    (∀ (url : String) (e : Unit),
      URLResolver.resolveGuard (Except.error e) url = url) := by
  constructor
  · intro base url kind h1 h2 h3 h4
    show URLResolver.resolveBody base url kind = url
    simp [URLResolver.resolveBody, h1, h2, h3, h4]
  · intro url e
    rfl

/-- C9 witness at kind `"rss"` and a concrete raised exception. -/
theorem resolver_passthrough_witness :
    URLResolver.resolve "https://rsshub.app" "https://example.com/feed" "rss" =
      "https://example.com/feed" ∧
    URLResolver.resolveGuard (Except.error ()) "u" = "u" :=
  ⟨resolver_passthrough_and_guard.1 "https://rsshub.app" "https://example.com/feed"
      "rss" (by decide) (by decide) (by decide) (by decide),
    resolver_passthrough_and_guard.2 "u" ()⟩

/-!  ## Unfolding lemmas for the `check_flux` loop  -/

section LoopLemmas

variable {search : String → String → Except Unit Bool} {flux : Flux} {quiet : Bool}
  {sendOk metaOk : Entry → Bool} {m : Nat} {e : Entry} {rest : List Entry}
  {s : CycleState} {store₀ : SentStore}

theorem check_flux_loop_stop (h : m ≤ s.sent) :
    check_flux_loop search flux quiet sendOk metaOk m (e :: rest) s = s := by
  simp [check_flux_loop, h]

theorem check_flux_loop_skip_link (hm : ¬ m ≤ s.sent) (hl : entryLink e = "") :
    check_flux_loop search flux quiet sendOk metaOk m (e :: rest) s =
      check_flux_loop search flux quiet sendOk metaOk m rest s := by
  simp [check_flux_loop, hm, hl]

theorem check_flux_loop_skip_quiet (hm : ¬ m ≤ s.sent) (hq : quiet = true) :
    check_flux_loop search flux quiet sendOk metaOk m (e :: rest) s =
      check_flux_loop search flux quiet sendOk metaOk m rest s := by
  by_cases hl : entryLink e = "" <;> simp [check_flux_loop, hm, hl, hq]

theorem check_flux_loop_skip_seen (hm : ¬ m ≤ s.sent) (hl : ¬ entryLink e = "")
    (hq : quiet = false) (hd : entryLink e ∈ s.seen) :
    check_flux_loop search flux quiet sendOk metaOk m (e :: rest) s =
      check_flux_loop search flux quiet sendOk metaOk m rest s := by
  simp [check_flux_loop, hm, hl, hq, hd]

theorem check_flux_loop_skip_sent (hm : ¬ m ≤ s.sent) (hl : ¬ entryLink e = "")
    (hq : quiet = false) (hd : entryLink e ∉ s.seen)
    (ha : already_sent s.store (entryLink e) = true) :
    check_flux_loop search flux quiet sendOk metaOk m (e :: rest) s =
      check_flux_loop search flux quiet sendOk metaOk m rest s := by
  simp [check_flux_loop, hm, hl, hq, hd, ha]

theorem check_flux_loop_skip_filtered (hm : ¬ m ≤ s.sent) (hl : ¬ entryLink e = "")
    (hq : quiet = false) (hd : entryLink e ∉ s.seen)
    (ha : already_sent s.store (entryLink e) = false)
    (hp : passesContentFilters search flux (entryText e) (entryLink e) = false) :
    check_flux_loop search flux quiet sendOk metaOk m (e :: rest) s =
      check_flux_loop search flux quiet sendOk metaOk m rest
        { s with seen := entryLink e :: s.seen } := by
  simp [check_flux_loop, hm, hl, hq, hd, ha, hp]

theorem check_flux_loop_dispatch (hm : ¬ m ≤ s.sent) (hl : ¬ entryLink e = "")
    (hq : quiet = false) (hd : entryLink e ∉ s.seen)
    (ha : already_sent s.store (entryLink e) = false)
    (hp : passesContentFilters search flux (entryText e) (entryLink e) = true)
    (hsk : sendOk e = true) :
    check_flux_loop search flux quiet sendOk metaOk m (e :: rest) s =
      check_flux_loop search flux quiet sendOk metaOk m rest
        { s with
          seen := entryLink e :: s.seen
          store := mark_as_sent s.store flux.id (entryLink e)
          sent := s.sent + 1
          dispatched := s.dispatched ++ [e]
          metaTotal := if metaOk e then flux.totalSent + 1 else s.metaTotal } := by
  simp [check_flux_loop, hm, hl, hq, hd, ha, hp, hsk]

theorem qualifies_false_of_link (hl : entryLink e = "") :
    qualifies search flux quiet store₀ e = false := by
  simp [qualifies, hl]

theorem qualifies_false_of_quiet (hq : quiet = true) :
    qualifies search flux quiet store₀ e = false := by
  simp [qualifies, hq]

theorem qualifies_false_of_sent (ha : already_sent store₀ (entryLink e) = true) :
    qualifies search flux quiet store₀ e = false := by
  simp [qualifies, ha]

theorem qualifies_false_of_filtered
    (hp : passesContentFilters search flux (entryText e) (entryLink e) = false) :
    qualifies search flux quiet store₀ e = false := by
  simp [qualifies, hp]

theorem qualifies_true (hl : ¬ entryLink e = "") (hq : quiet = false)
    (ha : already_sent store₀ (entryLink e) = false)
    (hp : passesContentFilters search flux (entryText e) (entryLink e) = true) :
    qualifies search flux quiet store₀ e = true := by
  simp [qualifies, hl, hq, ha, hp]

end LoopLemmas

/-- The `check_flux` loop computed in closed form: under distinct links,
with every Discord send succeeding, the loop dispatches exactly the first
`m - s.sent` qualifying entries, counts them, and appends exactly their
links to the `sent_items` store. -/
theorem check_flux_loop_spec (search : String → String → Except Unit Bool)
    (flux : Flux) (quiet : Bool) (sendOk metaOk : Entry → Bool) (m : Nat)
    (store₀ : SentStore) (hsend : ∀ e, sendOk e = true) :
    ∀ (es : List Entry) (s : CycleState),
      (es.map entryLink).Nodup →
      (∀ e ∈ es, entryLink e ∉ s.seen) →
      (∀ e ∈ es, already_sent s.store (entryLink e) =
        already_sent store₀ (entryLink e)) →
      ((check_flux_loop search flux quiet sendOk metaOk m es s).dispatched =
        s.dispatched ++
          (es.filter (qualifies search flux quiet store₀)).take (m - s.sent)) ∧
      ((check_flux_loop search flux quiet sendOk metaOk m es s).sent =
        s.sent + min (m - s.sent)
          (es.filter (qualifies search flux quiet store₀)).length) ∧
      ((check_flux_loop search flux quiet sendOk metaOk m es s).store =
        s.store ++
          ((es.filter (qualifies search flux quiet store₀)).take (m - s.sent)).map
            (fun e => (flux.id, entryLink e))) := by
  intro es
  induction es with
  | nil =>
    intro s _ _ _
    simp [check_flux_loop]
  | cons e rest ih =>
    intro s hnd hseen hstore
    have hndE : entryLink e ∉ rest.map entryLink := (List.nodup_cons.mp hnd).1
    have hndR : (rest.map entryLink).Nodup := (List.nodup_cons.mp hnd).2
    have hne : ∀ e2 ∈ rest, entryLink e2 ≠ entryLink e := by
      intro e2 he2 hc
      exact hndE (hc ▸ List.mem_map_of_mem entryLink he2)
    have hseenR : ∀ e2 ∈ rest, entryLink e2 ∉ s.seen :=
      fun e2 h => hseen e2 (List.mem_cons_of_mem _ h)
    have hstoreR : ∀ e2 ∈ rest, already_sent s.store (entryLink e2) =
        already_sent store₀ (entryLink e2) :=
      fun e2 h => hstore e2 (List.mem_cons_of_mem _ h)
    by_cases hm : m ≤ s.sent
    · have h0 : m - s.sent = 0 := Nat.sub_eq_zero_of_le hm
      rw [check_flux_loop_stop hm]
      simp [h0]
    · by_cases hl : entryLink e = ""
      · rw [check_flux_loop_skip_link hm hl,
          List.filter_cons_of_neg (by simp [qualifies_false_of_link hl])]
        exact ih s hndR hseenR hstoreR
      · by_cases hq : quiet = true
        · rw [check_flux_loop_skip_quiet hm hq,
            List.filter_cons_of_neg (by simp [qualifies_false_of_quiet hq])]
          exact ih s hndR hseenR hstoreR
        · have hq' : quiet = false := by simpa using hq
          have hseenE : entryLink e ∉ s.seen := hseen e (List.mem_cons_self e rest)
          by_cases ha : already_sent s.store (entryLink e) = true
          · have ha0 : already_sent store₀ (entryLink e) = true := by
              rw [← hstore e (List.mem_cons_self e rest)]; exact ha
            rw [check_flux_loop_skip_sent hm hl hq' hseenE ha,
              List.filter_cons_of_neg (by simp [qualifies_false_of_sent ha0])]
            exact ih s hndR hseenR hstoreR
          · have ha' : already_sent s.store (entryLink e) = false := by
              simpa using ha
            have ha0 : already_sent store₀ (entryLink e) = false := by
              rw [← hstore e (List.mem_cons_self e rest)]; exact ha'
            by_cases hp : passesContentFilters search flux (entryText e)
                (entryLink e) = true
            · -- dispatch branch
              have hqual : qualifies search flux quiet store₀ e = true :=
                qualifies_true hl hq' ha0 hp
              rw [check_flux_loop_dispatch hm hl hq' hseenE ha' hp (hsend e),
                List.filter_cons_of_pos hqual]
              have hms : m - s.sent = (m - (s.sent + 1)) + 1 := by omega
              obtain ⟨hd, hs, hst⟩ := ih
                { s with
                  seen := entryLink e :: s.seen
                  store := mark_as_sent s.store flux.id (entryLink e)
                  sent := s.sent + 1
                  dispatched := s.dispatched ++ [e]
                  metaTotal := if metaOk e then flux.totalSent + 1 else s.metaTotal }
                hndR
                (by
                  intro e2 h2
                  simp only [List.mem_cons]
                  push_neg
                  exact ⟨hne e2 h2, hseenR e2 h2⟩)
                (by
                  intro e2 h2
                  rw [mark_as_sent_of_not_sent s.store flux.id (entryLink e) ha',
                    already_sent_append]
                  simp [Ne.symm (hne e2 h2), hstoreR e2 h2])
              refine ⟨?_, ?_, ?_⟩
              · rw [hd]
                simp only [hms, List.take_succ_cons, List.append_assoc,
                  List.singleton_append]
              · rw [hs]
                simp only [List.length_cons]
                omega
              · rw [hst, mark_as_sent_of_not_sent s.store flux.id (entryLink e) ha']
                simp only [hms, List.take_succ_cons, List.map_cons,
                  List.append_assoc, List.singleton_append]
            · have hp' : passesContentFilters search flux (entryText e)
                  (entryLink e) = false := by simpa using hp
              rw [check_flux_loop_skip_filtered hm hl hq' hseenE ha' hp',
                List.filter_cons_of_neg (by simp [qualifies_false_of_filtered hp'])]
              exact ih { s with seen := entryLink e :: s.seen } hndR
                (by
                  intro e2 h2
                  simp only [List.mem_cons]
                  push_neg
                  exact ⟨hne e2 h2, hseenR e2 h2⟩)
                hstoreR

/-- Loop step when the Discord send raises: seen is extended, nothing else
changes (needed for the dedup invariant below). -/
theorem check_flux_loop_send_skip {search : String → String → Except Unit Bool}
    {flux : Flux} {quiet : Bool} {sendOk metaOk : Entry → Bool} {m : Nat}
    {e : Entry} {rest : List Entry} {s : CycleState}
    (hm : ¬ m ≤ s.sent) (hl : ¬ entryLink e = "") (hq : quiet = false)
    (hd : entryLink e ∉ s.seen) (ha : already_sent s.store (entryLink e) = false)
    (hp : passesContentFilters search flux (entryText e) (entryLink e) = true)
    (hsf : sendOk e = false) :
    check_flux_loop search flux quiet sendOk metaOk m (e :: rest) s =
      check_flux_loop search flux quiet sendOk metaOk m rest
        { s with seen := entryLink e :: s.seen } := by
  simp [check_flux_loop, hm, hl, hq, hd, ha, hp, hsf]

/-- C2: when the sorted entry list holds more than `maxPerRun` qualifying
items (links pairwise distinct, sink always succeeding), one `check_flux`
cycle dispatches exactly the first `maxPerRun` qualifying items of the
sorted sequence — in descending resolved-timestamp order — and the
`sent_items` store gains exactly the dispatched links, so the items after
the cap are neither dispatched nor marked sent. -/
theorem check_flux_max_per_run_cap
    (search : String → String → Except Unit Bool) (flux : Flux) (now : Nat)
    (sendOk metaOk : Entry → Bool) (entries : List Entry) (store₀ : SentStore)
    (hsend : ∀ e, sendOk e = true)
    (hnd : (entries.map entryLink).Nodup)
    (hcount : pyMaxPerRun flux <
      ((sort_items entries).filter
        (qualifies search flux
          (within_quiet_hours now flux.quietHoursStart flux.quietHoursEnd)
          store₀)).length) :
    (check_flux_run search flux now sendOk metaOk entries store₀).dispatched =
      ((sort_items entries).filter
        (qualifies search flux
          (within_quiet_hours now flux.quietHoursStart flux.quietHoursEnd)
          store₀)).take (pyMaxPerRun flux) ∧
    (check_flux_run search flux now sendOk metaOk entries store₀).dispatched.length
      = pyMaxPerRun flux ∧
    (check_flux_run search flux now sendOk metaOk entries store₀).store =
      store₀ ++
        ((check_flux_run search flux now sendOk metaOk entries store₀).dispatched).map
          (fun e => (flux.id, entryLink e)) ∧
    List.Pairwise entryGE
      (check_flux_run search flux now sendOk metaOk entries store₀).dispatched := by
  have hperm : List.Perm (sort_items entries) entries :=
    List.perm_insertionSort entryGE entries
  have hndS : ((sort_items entries).map entryLink).Nodup :=
    ((hperm.map entryLink).nodup_iff).mpr hnd
  obtain ⟨hd, hs, hst⟩ := check_flux_loop_spec search flux
    (within_quiet_hours now flux.quietHoursStart flux.quietHoursEnd) sendOk metaOk
    (pyMaxPerRun flux) store₀ hsend (sort_items entries) (initialState flux store₀)
    hndS (by intro e2 h2; simp [initialState]) (fun e2 h2 => rfl)
  have hrun : check_flux_run search flux now sendOk metaOk entries store₀ =
      check_flux_loop search flux
        (within_quiet_hours now flux.quietHoursStart flux.quietHoursEnd)
        sendOk metaOk (pyMaxPerRun flux) (sort_items entries)
        { store := store₀, seen := [], sent := 0, dispatched := [],
          metaTotal := flux.totalSent } := rfl
  simp only [initialState, Nat.sub_zero, List.nil_append] at hd hs hst
  have hd' : (check_flux_run search flux now sendOk metaOk entries store₀).dispatched
      = ((sort_items entries).filter
          (qualifies search flux
            (within_quiet_hours now flux.quietHoursStart flux.quietHoursEnd)
            store₀)).take (pyMaxPerRun flux) := by
    rw [hrun]; exact hd
  refine ⟨hd', ?_, ?_, ?_⟩
  · rw [hd', List.length_take]
    omega
  · rw [hd', hrun, hst]
  · rw [hd']
    have hsub : List.Sublist
        (((sort_items entries).filter
          (qualifies search flux
            (within_quiet_hours now flux.quietHoursStart flux.quietHoursEnd)
            store₀)).take (pyMaxPerRun flux)) (sort_items entries) :=
      (List.take_sublist _ _).trans (List.filter_sublist _)
    exact List.Pairwise.sublist hsub (List.sorted_insertionSort entryGE entries)

/-- C2 witness: `maxPerRun = 2` with three qualifying items dispatches the
two newest. -/
theorem check_flux_max_per_run_cap_witness :
    (check_flux_run pySearchStub (fluxNoFilters "F" 2 0) 0 (fun _ => true)
      (fun _ => true)
      [mkEntry "http://x/1" 100, mkEntry "http://x/2" 300, mkEntry "http://x/3" 200]
      []).dispatched =
      ((sort_items [mkEntry "http://x/1" 100, mkEntry "http://x/2" 300,
          mkEntry "http://x/3" 200]).filter
        (qualifies pySearchStub (fluxNoFilters "F" 2 0)
          (within_quiet_hours 0 (fluxNoFilters "F" 2 0).quietHoursStart
            (fluxNoFilters "F" 2 0).quietHoursEnd) [])).take
        (pyMaxPerRun (fluxNoFilters "F" 2 0)) :=
  (check_flux_max_per_run_cap pySearchStub (fluxNoFilters "F" 2 0) 0
    (fun _ => true) (fun _ => true)
    [mkEntry "http://x/1" 100, mkEntry "http://x/2" 300, mkEntry "http://x/3" 200]
    [] (fun _ => rfl) (by decide) (by decide)).1

/-- A key just marked is reported sent (helper shared by dedup lemmas). -/
theorem already_sent_mark_self (store : SentStore) (f k : String) :
    already_sent (mark_as_sent store f k) k = true := by
  by_cases h : already_sent store k = true
  · simp [mark_as_sent, h]
  · have h' : already_sent store k = false := by simpa using h
    rw [mark_as_sent_of_not_sent store f k h']
    simp [already_sent]

/-- Marking an already-present key is a no-op, whatever feed id is used. -/
theorem mark_as_sent_of_sent (store : SentStore) (f k : String)
    (h : already_sent store k = true) : mark_as_sent store f k = store := by
  simp [mark_as_sent, h]

/-- A key present in the `sent_items` store when a cycle starts is never
dispatched by that cycle, whichever feed runs it (helper for C10). -/
theorem check_flux_loop_skips_sent_key (search : String → String → Except Unit Bool)
    (flux : Flux) (quiet : Bool) (sendOk metaOk : Entry → Bool) (m : Nat)
    (k : String) :
    ∀ (es : List Entry) (s : CycleState),
      already_sent s.store k = true →
      (∀ e ∈ s.dispatched, entryLink e ≠ k) →
      ∀ e ∈ (check_flux_loop search flux quiet sendOk metaOk m es s).dispatched,
        entryLink e ≠ k := by
  intro es
  induction es with
  | nil =>
    intro s _ h2
    simpa [check_flux_loop] using h2
  | cons e rest ih =>
    intro s h1 h2
    by_cases hm : m ≤ s.sent
    · rw [check_flux_loop_stop hm]; exact h2
    · by_cases hl : entryLink e = ""
      · rw [check_flux_loop_skip_link hm hl]; exact ih s h1 h2
      · by_cases hq : quiet = true
        · rw [check_flux_loop_skip_quiet hm hq]; exact ih s h1 h2
        · have hq' : quiet = false := by simpa using hq
          by_cases hseenE : entryLink e ∈ s.seen
          · rw [check_flux_loop_skip_seen hm hl hq' hseenE]; exact ih s h1 h2
          · by_cases ha : already_sent s.store (entryLink e) = true
            · rw [check_flux_loop_skip_sent hm hl hq' hseenE ha]; exact ih s h1 h2
            · have ha' : already_sent s.store (entryLink e) = false := by
                simpa using ha
              have hek : entryLink e ≠ k := by
                intro hc
                rw [hc, h1] at ha'
                exact absurd ha' (by simp)
              have hstep : ∀ s2 : CycleState, already_sent s2.store k = true →
                  (∀ x ∈ s2.dispatched, entryLink x ≠ k) →
                  ∀ x ∈ (check_flux_loop search flux quiet sendOk metaOk m
                    rest s2).dispatched, entryLink x ≠ k := ih
              by_cases hp : passesContentFilters search flux (entryText e)
                  (entryLink e) = true
              · by_cases hsk : sendOk e = true
                · rw [check_flux_loop_dispatch hm hl hq' hseenE ha' hp hsk]
                  refine hstep _ ?_ ?_
                  · show already_sent
                      (mark_as_sent s.store flux.id (entryLink e)) k = true
                    rw [mark_as_sent_of_not_sent s.store flux.id (entryLink e) ha',
                      already_sent_append, h1]
                    simp
                  · intro x hx
                    rcases List.mem_append.mp hx with hx2 | hx2
                    · exact h2 x hx2
                    · rw [List.mem_singleton.mp hx2]
                      exact hek
                · have hsf : sendOk e = false := by simpa using hsk
                  rw [check_flux_loop_send_skip hm hl hq' hseenE ha' hp hsf]
                  exact hstep _ h1 h2
              · have hp' : passesContentFilters search flux (entryText e)
                    (entryLink e) = false := by simpa using hp
                rw [check_flux_loop_skip_filtered hm hl hq' hseenE ha' hp']
                exact hstep _ h1 h2

/-- C10: dedup identity is global across feeds — a key marked by one feed
is reported sent without regard to feed id, a second feed's duplicate
insert of the same url is a no-op (the UNIQUE constraint is on `item_url`
alone), and a key already in the store when any feed's cycle starts is
never dispatched by that cycle. -/
theorem dedup_global_across_feeds :
    (∀ (store : SentStore) (f1 f2 k : String),
      already_sent (mark_as_sent store f1 k) k = true ∧
      mark_as_sent (mark_as_sent store f1 k) f2 k = mark_as_sent store f1 k) ∧
    (∀ (search : String → String → Except Unit Bool) (flux : Flux) (now : Nat)
      (sendOk metaOk : Entry → Bool) (entries : List Entry) (store₀ : SentStore)
      (k : String), already_sent store₀ k = true →
      ∀ e ∈ (check_flux_run search flux now sendOk metaOk entries
        store₀).dispatched, entryLink e ≠ k) := by
  constructor
  · intro store f1 f2 k
    exact ⟨already_sent_mark_self store f1 k,
      mark_as_sent_of_sent _ f2 k (already_sent_mark_self store f1 k)⟩
  · intro search flux now sendOk metaOk entries store₀ k hk
    exact check_flux_loop_skips_sent_key search flux
      (within_quiet_hours now flux.quietHoursStart flux.quietHoursEnd)
      sendOk metaOk (pyMaxPerRun flux) k (sort_items entries)
      (initialState flux store₀) hk (by simp [initialState])

/-- C10 witness: feed B marking feed A's url is a no-op, and a cycle of
feed G over a store already holding one url dispatches only the other. -/
theorem dedup_global_across_feeds_witness :
    (already_sent (mark_as_sent [] "feedA" "http://y/1") "http://y/1" = true ∧
      mark_as_sent (mark_as_sent [] "feedA" "http://y/1") "feedB" "http://y/1" =
        mark_as_sent [] "feedA" "http://y/1") ∧
    entryLink (mkEntry "http://y/2" 300) ≠ "http://y/1" :=
  ⟨dedup_global_across_feeds.1 [] "feedA" "feedB" "http://y/1",
    dedup_global_across_feeds.2 pySearchStub (fluxNoFilters "G" 5 0) 0
      (fun _ => true) (fun _ => true)
      [mkEntry "http://y/1" 100, mkEntry "http://y/2" 300]
      [("feedA", "http://y/1")] "http://y/1" (by decide)
      (mkEntry "http://y/2" 300) (by decide)⟩

/-- In the `RSSService.check_and_send_flux` loop, with metadata updates
succeeding, the stored `totalSent` always equals the snapshot plus the
number of items sent so far (supporting lemma for C5: the service copy
does increment per dispatched item). -/
theorem check_and_send_loop_metaTotal (search : String → String → Except Unit Bool)
    (flux : Flux) (quiet : Bool) (sendOk metaOk : Entry → Bool) (m : Nat)
    (hmeta : ∀ e, metaOk e = true) :
    ∀ (es : List Entry) (s : CycleState),
      s.metaTotal = flux.totalSent + (s.sent : Int) →
      (check_and_send_loop search flux quiet sendOk metaOk m es s).metaTotal =
        flux.totalSent +
          ((check_and_send_loop search flux quiet sendOk metaOk m es s).sent : Int) := by
  intro es
  induction es with
  | nil =>
    intro s h
    simpa [check_and_send_loop] using h
  | cons e rest ih =>
    intro s h
    simp only [check_and_send_loop]
    split
    · exact h
    · split
      · exact ih s h
      · split
        · exact ih s h
        · split
          · exact ih s h
          · split
            · exact ih s h
            · split
              · exact ih _ h
              · split
                · apply ih
                  show (if metaOk e then flux.totalSent + ((s.sent : Int) + 1)
                      else s.metaTotal) = flux.totalSent + ((s.sent + 1 : Nat) : Int)
                  rw [hmeta e, if_pos rfl]
                  push_cast
                  ring
                · exact ih _ h

/-- C5 (failing input): a `check_flux` cycle that successfully delivers two
items marks both sent, but its metadata writes store `flux.totalSent + 1`
from the stale in-memory snapshot on every item, so the counter ends at
the previous value plus ONE, not plus two; the service copy
(`check_and_send_flux`) on the same input ends at the previous value plus
two, which is the behaviour the spec describes. -/
theorem check_flux_totalSent_stale_snapshot :
    ((check_flux_run pySearchStub (fluxNoFilters "F" 5 7) 0 (fun _ => true)
      (fun _ => true) [mkEntry "http://x/1" 100, mkEntry "http://x/2" 300]
      []).dispatched.length = 2) ∧
    ((check_flux_run pySearchStub (fluxNoFilters "F" 5 7) 0 (fun _ => true)
      (fun _ => true) [mkEntry "http://x/1" 100, mkEntry "http://x/2" 300]
      []).store = [("F", "http://x/2"), ("F", "http://x/1")]) ∧
    ((check_flux_run pySearchStub (fluxNoFilters "F" 5 7) 0 (fun _ => true)
      (fun _ => true) [mkEntry "http://x/1" 100, mkEntry "http://x/2" 300]
      []).metaTotal = 7 + 1) ∧
    ((check_and_send_run pySearchStub (fluxNoFilters "F" 5 7) 0 (fun _ => true)
      (fun _ => true) [mkEntry "http://x/1" 100, mkEntry "http://x/2" 300]
      []).metaTotal = 7 + 2) := by
  decide

/-- The reload fold in closed form: scheduling a list of feeds with
pairwise-distinct job ids, starting from a job table disjoint from them,
appends one job per feed at its effective interval (helper for C7). -/
theorem schedule_foldl_jobs (d : Nat) :
    ∀ (fs : List Flux) (st : SchedulerState),
      ((fs.map (fun f => jobIdOf f.id)).Nodup) →
      (∀ f ∈ fs, ∀ j ∈ st.jobs, j.1 ≠ jobIdOf f.id) →
      ((fs.foldl (schedule_flux d) st).jobs =
        st.jobs ++ fs.map (fun f =>
          (jobIdOf f.id, effective_interval st.aggressive d f.interval))) ∧
      ((fs.foldl (schedule_flux d) st).aggressive = st.aggressive) := by
  intro fs
  induction fs with
  | nil =>
    intro st _ _
    simp
  | cons f rest ih =>
    intro st h1 h2
    have hfilter : st.jobs.filter (fun j => j.1 != jobIdOf f.id) = st.jobs := by
      apply List.filter_eq_self.mpr
      intro j hj
      simpa using h2 f (List.mem_cons_self f rest) j hj
    have hstep : schedule_flux d st f =
        { st with jobs := st.jobs ++
          [(jobIdOf f.id, effective_interval st.aggressive d f.interval)] } := by
      simp [schedule_flux, hfilter]
    have hndE : jobIdOf f.id ∉ rest.map (fun g => jobIdOf g.id) :=
      (List.nodup_cons.mp h1).1
    have hndR : (rest.map (fun g => jobIdOf g.id)).Nodup :=
      (List.nodup_cons.mp h1).2
    rw [List.foldl_cons, hstep]
    obtain ⟨hj, ha⟩ := ih
      { st with jobs := st.jobs ++
        [(jobIdOf f.id, effective_interval st.aggressive d f.interval)] }
      hndR
      (by
        intro g hg j hjmem
        rcases List.mem_append.mp hjmem with hmem | hmem
        · exact h2 g (List.mem_cons_of_mem f hg) j hmem
        · rw [List.mem_singleton.mp hmem]
          intro hc
          have hc2 : jobIdOf f.id = jobIdOf g.id := hc
          have hmem2 : jobIdOf g.id ∈ rest.map (fun g => jobIdOf g.id) :=
            List.mem_map_of_mem (fun g => jobIdOf g.id) hg
          rw [← hc2] at hmem2
          exact hndE hmem2)
    refine ⟨?_, ha⟩
    rw [hj]
    simp [List.append_assoc]

/-- C7: under aggressive mode every scheduled feed gets a 10-second timer
regardless of its configured interval; with the flag off, the timer is the
feed's own interval (or the configured default when the interval is the
falsy 0); and toggling the flag reschedules every active feed at the
corresponding effective interval. -/
theorem aggressive_mode_intervals (d : Nat) :
    (∀ (st : SchedulerState) (f : Flux), st.aggressive = true →
      (schedule_flux d st f).jobs =
        st.jobs.filter (fun j => j.1 != jobIdOf f.id) ++ [(jobIdOf f.id, 10)]) ∧
    (∀ (st : SchedulerState) (f : Flux), st.aggressive = false → f.interval ≠ 0 →
      (schedule_flux d st f).jobs =
        st.jobs.filter (fun j => j.1 != jobIdOf f.id) ++
          [(jobIdOf f.id, f.interval)]) ∧
    (∀ (st : SchedulerState) (f : Flux), st.aggressive = false → f.interval = 0 →
      (schedule_flux d st f).jobs =
        st.jobs.filter (fun j => j.1 != jobIdOf f.id) ++ [(jobIdOf f.id, d)]) ∧
    (∀ (fluxes : List Flux) (st : SchedulerState) (b : Bool),
      (((fluxes.filter (fun f => f.active)).map (fun f => jobIdOf f.id)).Nodup) →
      (set_aggressive_mode d fluxes st b).jobs =
        (fluxes.filter (fun f => f.active)).map
          (fun f => (jobIdOf f.id, effective_interval b d f.interval))) := by
  refine ⟨?_, ?_, ?_, ?_⟩
  · intro st f h
    simp [schedule_flux, effective_interval, h]
  · intro st f h h2
    simp [schedule_flux, effective_interval, h, h2]
  · intro st f h h2
    simp [schedule_flux, effective_interval, h, h2]
  · intro fluxes st b hnd
    obtain ⟨hj, _⟩ := schedule_foldl_jobs d (fluxes.filter (fun f => f.active))
      { aggressive := b, jobs := [] } hnd (by simp)
    exact hj.trans (by simp)

/-- C7 witness: enabling aggressive mode over two active feeds with
intervals 500 and 0 installs two 10-second jobs. -/
theorem aggressive_mode_intervals_witness :
    (set_aggressive_mode 300 [mkSchedFlux "A" 500 true, mkSchedFlux "B" 0 true]
      ⟨false, []⟩ true).jobs = [("flux_A", 10), ("flux_B", 10)] := by
  have h := (aggressive_mode_intervals 300).2.2.2
    [mkSchedFlux "A" 500 true, mkSchedFlux "B" 0 true] ⟨false, []⟩ true (by decide)
  rw [h]
  decide
